import Mathlib

/-!
Shallow embedding of the client-side orchestration logic of
`src/planing-github/frontend/src/app/page.tsx` (the `Home` component).

The component state is the collection of `useState` hooks (lines 21-33).
Each network-completion handler is translated as a pure state-update
function; the environment's choice of network outcome is an explicit
argument (a `*Result` inductive).  JavaScript value semantics that the
source relies on (string falsiness, `parseInt` returning `NaN`,
`x || y` defaulting) are modelled explicitly.
-/

namespace PlanningDashboard

/-- A JavaScript number as produced by `parseInt`: either `NaN` or an
integer value. -/
inductive JsNum where
  | nan : JsNum
  | int (n : Int) : JsNum
deriving DecidableEq

/-- JavaScript `String(x)` for a `JsNum`: `String(NaN) = "NaN"`. -/
def JsNum.toStr : JsNum → String
  | .nan => "NaN"
  | .int n => toString n

/-- Leading decimal-digit run of a character list. -/
def leadingDigits : List Char → List Char
  | [] => []
  | c :: cs => if c.isDigit then c :: leadingDigits cs else []

/-- Numeric value of a digit list (most significant first). -/
def digitsToNat (ds : List Char) : Nat :=
  List.foldl (fun a c => a * 10 + (c.toNat - 48)) 0 ds

/-- JavaScript `parseInt(s)` (radix 10): skip leading whitespace, read an
optional sign and a leading run of decimal digits; if no digit is read the
result is `NaN`.  (The `0x` hexadecimal form cannot be produced by the
number input that feeds this call and is not modelled.) -/
def parseIntJs (s : String) : JsNum :=
  match s.toList.dropWhile Char.isWhitespace with
  | '-' :: cs =>
    match leadingDigits cs with
    | [] => .nan
    | ds => .int (-(digitsToNat ds : Int))
  | '+' :: cs =>
    match leadingDigits cs with
    | [] => .nan
    | ds => .int (digitsToNat ds)
  | cs =>
    match leadingDigits cs with
    | [] => .nan
    | ds => .int (digitsToNat ds)

/-- JavaScript truthiness of the `selected : string | null` state:
`null` and the empty string are falsy. -/
def jsTruthySel : Option String → Bool
  | none => false
  | some s => s ≠ ""

/-- JavaScript `a || d` for an optional string `a` (absent or empty
strings are falsy and fall back to the default). -/
def jsOrStr (a : Option String) (d : String) : String :=
  match a with
  | none => d
  | some s => if s = "" then d else s

/-- One bundle row of the `/bundles` response (source lines 11-18).
Only `site_bundle_id` is read by the orchestration logic. -/
structure Bundle where
  site_bundle_id : String
  council_name : String
  n_apps : Int
  sample_address : String
  first_app : String
  last_app : String
deriving DecidableEq

/-- Commit payloads are opaque to the orchestration logic (the source
types them `any[]`); an abstract token stands for one item. -/
abbrev Commit := String

/-- The overview payload is likewise opaque (`any | null` in the source). -/
abbrev Overview := String

/-- A chat citation as attached to assistant turns and rendered at source
lines 345-354. -/
structure Citation where
  planning_reference : String
  url : String
deriving DecidableEq

/-- Role of a chat turn. -/
inductive Role where
  | user : Role
  | assistant : Role
deriving DecidableEq

/-- One transcript turn.  User turns carry no citations (the source omits
the field; we model that as the empty list). -/
structure ChatTurn where
  role : Role
  text : String
  citations : List Citation
deriving DecidableEq

/-- The introductory assistant turn installed on a successful detail load
(source lines 80-82). -/
def introTurn : ChatTurn :=
  { role := .assistant
    text := "Open a repo and ask me: “What changed recently and what should I do next?” I’ll cite commits so you can verify."
    citations := [] }

/-- The fixed fallback assistant turn appended when `/chat` fails
(source line 115). -/
def chatFallbackTurn : ChatTurn :=
  { role := .assistant
    text := "Chat is unavailable right now. Check backend /chat and GEMINI_API_KEY (optional)."
    citations := [] }

/-- The component state: one field per `useState` hook (source lines
21-33). -/
structure AppState where
  council : String
  q : String
  minApps : JsNum
  bundles : List Bundle
  selected : Option String
  commits : List Commit
  overview : Option Overview
  question : String
  chat : List ChatTurn
  loading : Bool
  err : Option String
deriving DecidableEq

/-- The initial state (the `useState` initialisers). -/
def initialState : AppState :=
  { council := "", q := "", minApps := .int 5, bundles := [], selected := none
    commits := [], overview := none, question := "", chat := []
    loading := false, err := none }

/-- The `onChange` handler of the min-commits input (source line 198):
`setMinApps(parseInt(e.target.value || "5"))`. -/
def minAppsOnChange (v : String) : JsNum :=
  parseIntJs (if v = "" then "5" else v)

/-- The `min_apps` query value sent by the bundles effect (source line
43): `String(minApps)`. -/
def minAppsParamSent (m : JsNum) : String :=
  m.toStr

/-- Outcome of the `/bundles` fetch as seen by the handler at source
lines 46-55.  `ok none` is a successful response whose JSON body is not
an array. -/
inductive BundlesResult where
  | ok (data : Option (List Bundle)) : BundlesResult
  | httpErr (status : Nat) : BundlesResult
  | netErr (msg : String) : BundlesResult
deriving DecidableEq

/-- Whether a `/bundles` outcome takes the `catch` branch. -/
def BundlesResult.isFailure : BundlesResult → Bool
  | .ok _ => false
  | .httpErr _ => true
  | .netErr _ => true

/-- The message of the error thrown for a `/bundles` failure (source
lines 47 and 53). -/
def bundlesFailMsg : BundlesResult → String
  | .ok _ => ""
  | .httpErr status => "Bundles HTTP " ++ toString status
  | .netErr msg => msg

/-- Completion of the bundles effect body (source lines 46-55):
on success `setBundles(Array.isArray(data) ? data : [])` and
`if (!selected && data?.[0]?.site_bundle_id) setSelected(...)`;
on failure `setErr(...)` and `setBundles([])`. -/
def applyBundles (s : AppState) (res : BundlesResult) : AppState :=
  match res with
  | .ok data =>
    let s₁ := { s with bundles := data.getD [] }
    match (data.getD []).head? with
    | some b =>
      if !jsTruthySel s.selected && b.site_bundle_id ≠ "" then
        { s₁ with selected := some b.site_bundle_id }
      else s₁
    | none => s₁
  | res =>
    { s with err := some ("Failed to load bundles: " ++ bundlesFailMsg res)
             bundles := [] }

/-- Outcome of the paired detail fetch (`/repo/{id}` and
`/repo/{id}/overview`, source lines 67-76).  The first failing check
wins: `r1.ok` is tested before `r2.ok`, so `overviewHttp` implies the
history request succeeded.  `ok none ov` is a success whose body lacks a
`commits` field (`repoData.commits || []`). -/
inductive DetailResult where
  | ok (commits : Option (List Commit)) (ov : Overview) : DetailResult
  | repoHttp (status : Nat) : DetailResult
  | overviewHttp (status : Nat) : DetailResult
  | netErr (msg : String) : DetailResult
deriving DecidableEq

/-- Whether a detail outcome takes the `catch` branch. -/
def DetailResult.isFailure : DetailResult → Bool
  | .ok _ _ => false
  | _ => true

/-- The message of the error thrown for a detail failure (source lines
72-73; a network rejection carries the browser's message). -/
def detailFailMsg : DetailResult → String
  | .ok _ _ => ""
  | .repoHttp status => "Repo HTTP " ++ toString status
  | .overviewHttp status => "Overview HTTP " ++ toString status
  | .netErr msg => msg

/-- Completion of the detail effect body (source lines 67-88).  Note the
source applies the result unconditionally: nothing compares the selection
captured at issue time with the current one. -/
def applyDetail (s : AppState) (res : DetailResult) : AppState :=
  match res with
  | .ok commits ov =>
    { s with commits := commits.getD []
             overview := some ov
             chat := [introTurn]
             question := "" }
  | res =>
    { s with err := some ("Failed to load repo: " ++ detailFailMsg res)
             commits := []
             overview := none }

/-- The request body of `POST /chat` (source line 103). -/
structure ChatRequest where
  bundle_id : String
  question : String
deriving DecidableEq

/-- The synchronous part of `ask(text)` (source lines 93-97): bail out on
a falsy selection, otherwise set the loading flag, clear the error slot,
append the user turn, and issue the request. -/
def askStart (s : AppState) (text : String) : AppState × Option ChatRequest :=
  match s.selected with
  | none => (s, none)
  | some sel =>
    if sel = "" then (s, none)
    else
      ({ s with loading := true
                err := none
                chat := s.chat ++ [{ role := .user, text := text, citations := [] }] },
       some { bundle_id := sel, question := text })

/-- Outcome of the `/chat` request as seen by `ask` (source lines
100-116).  `ok` carries the optional `answer` and `citations` fields of
the parsed body; `badJson` is a 2xx response whose body fails to parse. -/
inductive ChatResult where
  | ok (answer : Option String) (citations : Option (List Citation)) : ChatResult
  | httpErr (status : Nat) (body : String) : ChatResult
  | netErr (msg : String) : ChatResult
  | badJson (msg : String) : ChatResult
deriving DecidableEq

/-- Whether a `/chat` outcome takes the `catch` branch. -/
def ChatResult.isFailure : ChatResult → Bool
  | .ok _ _ => false
  | _ => true

/-- The message of the error thrown for a `/chat` failure (source lines
107-108: non-2xx throws `Chat HTTP {status}: {body.slice(0, 200)}`). -/
def chatFailMsg : ChatResult → String
  | .ok _ _ => ""
  | .httpErr status body => "Chat HTTP " ++ toString status ++ ": " ++ body.take 200
  | .netErr msg => msg
  | .badJson msg => msg

/-- The resumption of `ask` once the `/chat` request settles (source
lines 111-118): on success append the assistant turn with
`data.answer || "No answer returned."` and `data.citations || []`; on
failure set the error slot and append the fixed fallback turn; in either
case `setLoading(false)` runs afterwards. -/
def askResolve (s : AppState) (res : ChatResult) : AppState :=
  match res with
  | .ok answer citations =>
    { s with chat := s.chat ++
               [{ role := .assistant
                  text := jsOrStr answer "No answer returned."
                  citations := citations.getD [] }]
             loading := false }
  | res =>
    { s with err := some ("Chat failed: " ++ chatFailMsg res)
             chat := s.chat ++ [chatFallbackTurn]
             loading := false }

/-- The assistant (or fallback) turn that a settled `/chat` request
appends. -/
def askResolveTurn (res : ChatResult) : ChatTurn :=
  match res with
  | .ok answer citations =>
    { role := .assistant
      text := jsOrStr answer "No answer returned."
      citations := citations.getD [] }
  | _ => chatFallbackTurn

/-- The citation list actually rendered for an assistant turn:
`m.citations.slice(0, 4)` (source line 347). -/
def displayedCitations (cs : List Citation) : List Citation :=
  cs.take 4

/-- A system configuration for whole-run reasoning: the component state
plus the selections captured by detail requests still in flight (the
source never aborts a fetch). -/
structure Sys where
  st : AppState
  inflightDetail : List String
deriving DecidableEq

/-- Externally visible events driving the detail loader: a bundle click
(`setSelected`, source line 208, whose state change fires the
`[selected]` effect at lines 62-91, issuing the paired fetch and clearing
the error slot when the new selection is truthy) and the completion of an
outstanding detail fetch.  React bails out when `setSelected` receives
the current value, so a click on the already-selected id is a no-op. -/
inductive Event where
  | clickBundle (id : String) : Event
  | detailDone (captured : String) (res : DetailResult) : Event
deriving DecidableEq

/-- One event step.  A completion is consumed only if a request capturing
that selection is actually outstanding; its payload is then applied by
`applyDetail` with no staleness comparison, exactly as the source does. -/
def step (sys : Sys) (e : Event) : Sys :=
  match e with
  | .clickBundle id =>
    if sys.st.selected = some id then sys
    else
      let st₁ := { sys.st with selected := some id }
      if jsTruthySel (some id) then
        { st := { st₁ with err := none }
          inflightDetail := sys.inflightDetail ++ [id] }
      else { sys with st := st₁ }
  | .detailDone captured res =>
    if captured ∈ sys.inflightDetail then
      { st := applyDetail sys.st res
        inflightDetail := sys.inflightDetail.erase captured }
    else sys

/-- Run a sequence of events. -/
def run (sys : Sys) (es : List Event) : Sys :=
  List.foldl step sys es

/-- The freshly mounted system: initial state, no request in flight. -/
def sys0 : Sys :=
  { st := initialState, inflightDetail := [] }

/-- An interleaving in which the user selects bundle `A`, then bundle `B`
while `A`'s detail fetch is still in flight; `B`'s responses arrive and
are applied, and only then do `A`'s stale responses arrive. -/
def traceStale : List Event :=
  [ .clickBundle "A",
    .clickBundle "B",
    .detailDone "B" (.ok (some ["commit-B1"]) "overview-B"),
    .detailDone "A" (.ok (some ["commit-A1"]) "overview-A") ]

/-- A concrete bundle row with identifier `"b1"`. -/
def bundleB1 : Bundle :=
  { site_bundle_id := "b1", council_name := "Camden", n_apps := 7
    sample_address := "1 High St", first_app := "2020-01-01"
    last_app := "2024-01-01" }

/-- A state with no selection. -/
def st_noSel : AppState :=
  initialState

/-- A state whose selection is the (non-empty) identifier `"x1"`. -/
def st_selX : AppState :=
  { initialState with selected := some "x1" }

/-- A state in which selection `X` has a three-turn transcript and a
draft question pending. -/
def st_preC5 : AppState :=
  { initialState with
    selected := some "X"
    chat := [introTurn,
             { role := .user, text := "earlier question", citations := [] },
             { role := .assistant, text := "earlier answer", citations := [] }]
    question := "draft question" }

/-- The system of `st_preC5`, with no request in flight. -/
def sysC5 : Sys :=
  { st := st_preC5, inflightDetail := [] }

/-- Whether `needle` occurs as a contiguous substring of `hay`, checked
over the character lists. -/
def containsSub (hay needle : String) : Bool :=
  (List.range (hay.length + 1)).any fun i =>
    (hay.toList.drop i).take needle.length = needle.toList

/-- C1: the source has no staleness guard, contrary to the claim.  In the
trace where `A` is selected, then `B`, and `A`'s detail responses arrive
after `B`'s were applied, the final selection is `B` but the displayed
history and overview are `A`'s data, and the claim that stale responses
cause no state mutation fails. -/
theorem staleness_guard_missing :
    (run sys0 traceStale).st.selected = some "B" ∧
    (run sys0 traceStale).st.commits = ["commit-A1"] ∧
    (run sys0 traceStale).st.overview = some "overview-A" ∧
    (run sys0 traceStale).st.commits ≠ ["commit-B1"] := by
  decide

/-- C2 (counterexample): the claim says a non-numeric `minActivity` input
such as `"abc"` is sent as the default `5`; in fact
`parseInt("abc" || "5")` is `NaN` and the query value sent is `"NaN"`. -/
theorem minApps_nonnumeric_sends_NaN :
    minAppsParamSent (minAppsOnChange "abc") = "NaN" ∧
    minAppsParamSent (minAppsOnChange "abc") ≠ "5" := by
  decide

/-- C2 (amended): an empty `minActivity` input is coerced to the default
`5` before being sent; a non-empty non-numeric input yields `NaN` and is
sent as the string `"NaN"`. -/
theorem minApps_coercion (v : String) :
    (v = "" → minAppsParamSent (minAppsOnChange v) = "5") ∧
    (v ≠ "" → parseIntJs v = JsNum.nan →
      minAppsParamSent (minAppsOnChange v) = "NaN") := by
  constructor
  · intro h
    subst h
    decide
  · intro h1 h2
    simp [minAppsOnChange, if_neg h1, h2, minAppsParamSent, JsNum.toStr]

/-- Witness for `minApps_coercion` at the inputs `""` and `"abc"`. -/
theorem minApps_coercion_witness :
    minAppsParamSent (minAppsOnChange "") = "5" ∧
    minAppsParamSent (minAppsOnChange "abc") = "NaN" :=
  ⟨(minApps_coercion "").1 rfl,
   (minApps_coercion "abc").2 (by decide) (by decide)⟩

/-- C3: a successful list fetch completing with no current selection and
a non-empty response list whose first entry carries a non-empty
identifier sets the selection to that identifier; a fetch completing
while a non-empty selection exists leaves the selection unchanged. -/
theorem default_selection (s : AppState) (b : Bundle) (rest : List Bundle)
    (sel : String) :
    (s.selected = none → b.site_bundle_id ≠ "" →
      (applyBundles s (.ok (some (b :: rest)))).selected = some b.site_bundle_id) ∧
    (s.selected = some sel → sel ≠ "" →
      (applyBundles s (.ok (some (b :: rest)))).selected = some sel) := by
  constructor
  · intro h1 h2
    simp [applyBundles, h1, jsTruthySel, h2]
  · intro h1 h2
    simp [applyBundles, h1, jsTruthySel, h2]

/-- Witness for `default_selection`: with no selection the first entry
`"b1"` is auto-selected; with selection `"x1"` the selection stays. -/
theorem default_selection_witness :
    (applyBundles st_noSel (.ok (some [bundleB1]))).selected = some "b1" ∧
    (applyBundles st_selX (.ok (some [bundleB1]))).selected = some "x1" :=
  ⟨(default_selection st_noSel bundleB1 [] "x1").1 rfl (by decide),
   (default_selection st_selX bundleB1 [] "x1").2 rfl (by decide)⟩

/-- C4: with a (non-empty) selection, `ask text` synchronously appends a
user turn carrying exactly `text` before the request is issued, and after
the request settles with any outcome the transcript still extends that
user-turn append by exactly the one response turn. -/
theorem ask_appends_user_turn (s : AppState) (text sel : String)
    (res : ChatResult) (h1 : s.selected = some sel) (h2 : sel ≠ "") :
    (askStart s text).1.chat =
      s.chat ++ [{ role := .user, text := text, citations := [] }] ∧
    (askStart s text).2 = some { bundle_id := sel, question := text } ∧
    (askResolve (askStart s text).1 res).chat =
      s.chat ++ [{ role := .user, text := text, citations := [] },
                 askResolveTurn res] := by
  refine ⟨?_, ?_, ?_⟩ <;>
    cases res <;>
      simp [askStart, h1, if_neg h2, askResolve, askResolveTurn]

/-- Witness for `ask_appends_user_turn` at a failing request. -/
theorem ask_appends_user_turn_witness :
    (askStart st_selX "hello").1.chat =
      st_selX.chat ++ [{ role := .user, text := "hello", citations := [] }] ∧
    (askStart st_selX "hello").2 = some { bundle_id := "x1", question := "hello" } ∧
    (askResolve (askStart st_selX "hello").1 (.httpErr 500 "boom")).chat =
      st_selX.chat ++ [{ role := .user, text := "hello", citations := [] },
                       askResolveTurn (.httpErr 500 "boom")] :=
  ask_appends_user_turn st_selX "hello" "x1" (.httpErr 500 "boom") rfl (by decide)

/-- C5 (counterexample): changing the selection from `X` to `Y` does not
by itself reset the transcript or clear the question input — when `Y`'s
detail fetch fails, the three-turn transcript and the draft question of
`X` survive, contradicting the claim. -/
theorem selection_change_no_reset_on_failure :
    (run sysC5 [.clickBundle "Y", .detailDone "Y" (.repoHttp 500)]).st.selected
      = some "Y" ∧
    (run sysC5 [.clickBundle "Y", .detailDone "Y" (.repoHttp 500)]).st.chat
      = st_preC5.chat ∧
    (run sysC5 [.clickBundle "Y", .detailDone "Y" (.repoHttp 500)]).st.chat.length
      = 3 ∧
    (run sysC5 [.clickBundle "Y", .detailDone "Y" (.repoHttp 500)]).st.question
      = "draft question" := by
  decide

/-- C5 (amended): the transcript is reset to exactly the single
introductory assistant turn and the question input cleared when the
detail responses for the new selection arrive successfully; a failed
detail fetch leaves both untouched. -/
theorem selection_reset_on_detail_success (s : AppState)
    (cs : Option (List Commit)) (ov : Overview) (f : DetailResult)
    (hf : f.isFailure = true) :
    ((applyDetail s (.ok cs ov)).chat = [introTurn] ∧
     (applyDetail s (.ok cs ov)).question = "") ∧
    ((applyDetail s f).chat = s.chat ∧
     (applyDetail s f).question = s.question) := by
  refine ⟨⟨rfl, rfl⟩, ?_⟩
  cases f with
  | ok cs' ov' => simp [DetailResult.isFailure] at hf
  | repoHttp n => exact ⟨rfl, rfl⟩
  | overviewHttp n => exact ⟨rfl, rfl⟩
  | netErr m => exact ⟨rfl, rfl⟩

/-- Witness for `selection_reset_on_detail_success` at a concrete success
and a concrete failure. -/
theorem selection_reset_on_detail_success_witness :
    ((applyDetail st_preC5 (.ok (some ["c1"]) "ov")).chat = [introTurn] ∧
     (applyDetail st_preC5 (.ok (some ["c1"]) "ov")).question = "") ∧
    ((applyDetail st_preC5 (.repoHttp 500)).chat = st_preC5.chat ∧
     (applyDetail st_preC5 (.repoHttp 500)).question = st_preC5.question) :=
  selection_reset_on_detail_success st_preC5 (some ["c1"]) "ov" (.repoHttp 500) rfl

/-- C6: citations of a successful `/chat` response are stored in the
appended assistant turn as-is (identical reference and url values); the
rendered list is the first four of them, and taking it together with the
remainder recovers the stored list, so none are dropped from the
underlying data. -/
theorem citation_fidelity (s : AppState) (answer : Option String)
    (cs : List Citation) :
    (askResolve s (.ok answer (some cs))).chat =
      s.chat ++ [{ role := .assistant
                   text := jsOrStr answer "No answer returned."
                   citations := cs }] ∧
    displayedCitations cs = cs.take 4 ∧
    (displayedCitations cs).length ≤ 4 ∧
    displayedCitations cs ++ cs.drop 4 = cs := by
  refine ⟨rfl, rfl, ?_, ?_⟩
  · simp [displayedCitations]
  · simp [displayedCitations]

/-- C7: when the `/chat` request fails, the fixed fallback assistant turn
with an empty citation list is appended after the existing turns, the
last-error slot gets the diagnostic message, and the loading flag ends up
cleared — as it does for every other outcome. -/
theorem chat_failure_fallback (s : AppState) (res other : ChatResult)
    (h : res.isFailure = true) :
    (askResolve s res).chat = s.chat ++ [chatFallbackTurn] ∧
    chatFallbackTurn.citations = [] ∧
    (askResolve s res).err = some ("Chat failed: " ++ chatFailMsg res) ∧
    (askResolve s res).loading = false ∧
    (askResolve s other).loading = false := by
  refine ⟨?_, rfl, ?_, ?_, ?_⟩
  · cases res <;> simp_all [askResolve, ChatResult.isFailure]
  · cases res <;> simp_all [askResolve, ChatResult.isFailure]
  · cases res <;> simp_all [askResolve, ChatResult.isFailure]
  · cases other <;> simp [askResolve]

/-- Witness for `chat_failure_fallback` at an HTTP 500 failure (with a
successful request as the second outcome). -/
theorem chat_failure_fallback_witness :
    (askResolve st_selX (.httpErr 500 "ise")).chat =
      st_selX.chat ++ [chatFallbackTurn] ∧
    chatFallbackTurn.citations = [] ∧
    (askResolve st_selX (.httpErr 500 "ise")).err =
      some ("Chat failed: " ++ chatFailMsg (.httpErr 500 "ise")) ∧
    (askResolve st_selX (.httpErr 500 "ise")).loading = false ∧
    (askResolve st_selX (.ok none none)).loading = false :=
  chat_failure_fallback st_selX (.httpErr 500 "ise") (.ok none none) rfl

/-- C8 (counterexample): for a network-error failure the surfaced error
is the fixed "Failed to load repo:" text plus the browser's generic
rejection message; it contains neither of the resource-naming texts used
by the HTTP-status paths ("Repo HTTP" / "Overview HTTP"), so it does not
identify which of the two requests failed, contradicting the claim for
the network-error case it explicitly covers. -/
theorem detail_network_error_names_no_resource :
    (applyDetail st_selX (.netErr "Failed to fetch")).err =
      some "Failed to load repo: Failed to fetch" ∧
    containsSub "Failed to load repo: Failed to fetch" "Repo HTTP" = false ∧
    containsSub "Failed to load repo: Failed to fetch" "Overview HTTP" = false := by
  decide

/-- C8 (amended): any failure of the paired detail fetch clears both the
displayed history and the overview and surfaces an error built from the
thrown message; for the non-2xx cases that message names the failed
resource, while a network error surfaces only the browser's message,
with no indication of which request failed. -/
theorem detail_failure_clears_both (s : AppState) (res : DetailResult)
    (n : Nat) (m : String) (h : res.isFailure = true) :
    (applyDetail s res).commits = [] ∧
    (applyDetail s res).overview = none ∧
    (applyDetail s res).err =
      some ("Failed to load repo: " ++ detailFailMsg res) ∧
    (res = .repoHttp n → detailFailMsg res = "Repo HTTP " ++ toString n) ∧
    (res = .overviewHttp n → detailFailMsg res = "Overview HTTP " ++ toString n) ∧
    (res = .netErr m → detailFailMsg res = m) := by
  cases res <;> simp_all [applyDetail, detailFailMsg, DetailResult.isFailure]

/-- Witness for `detail_failure_clears_both` at a history HTTP 404. -/
theorem detail_failure_clears_both_witness :
    (applyDetail st_preC5 (.repoHttp 404)).commits = [] ∧
    (applyDetail st_preC5 (.repoHttp 404)).overview = none ∧
    (applyDetail st_preC5 (.repoHttp 404)).err =
      some ("Failed to load repo: " ++ detailFailMsg (.repoHttp 404)) ∧
    (DetailResult.repoHttp 404 = .repoHttp 404 →
      detailFailMsg (.repoHttp 404) = "Repo HTTP " ++ toString 404) ∧
    (DetailResult.repoHttp 404 = .overviewHttp 404 →
      detailFailMsg (.repoHttp 404) = "Overview HTTP " ++ toString 404) ∧
    (DetailResult.repoHttp 404 = .netErr "Failed to fetch" →
      detailFailMsg (.repoHttp 404) = "Failed to fetch") :=
  detail_failure_clears_both st_preC5 (.repoHttp 404) 404 "Failed to fetch" rfl

/-- C9: a failed list fetch clears the displayed list, sets a user-visible
error embedding the failure reason, and leaves the selection unchanged. -/
theorem bundles_failure (s : AppState) (res : BundlesResult)
    (h : res.isFailure = true) :
    (applyBundles s res).bundles = [] ∧
    (applyBundles s res).selected = s.selected ∧
    (applyBundles s res).err =
      some ("Failed to load bundles: " ++ bundlesFailMsg res) := by
  cases res <;> simp_all [applyBundles, BundlesResult.isFailure]

/-- Witness for `bundles_failure` at an HTTP 500 failure. -/
theorem bundles_failure_witness :
    (applyBundles st_selX (.httpErr 500)).bundles = [] ∧
    (applyBundles st_selX (.httpErr 500)).selected = st_selX.selected ∧
    (applyBundles st_selX (.httpErr 500)).err =
      some ("Failed to load bundles: " ++ bundlesFailMsg (.httpErr 500)) :=
  bundles_failure st_selX (.httpErr 500) rfl

/-- C10: `ask` with no selection returns immediately — the state is
returned unchanged in every field and no request is issued. -/
theorem ask_noop_without_selection (s : AppState) (text : String)
    (h : s.selected = none) :
    askStart s text = (s, none) := by
  simp [askStart, h]

/-- Witness for `ask_noop_without_selection` on the initial state. -/
theorem ask_noop_without_selection_witness :
    askStart initialState "hello" = (initialState, none) :=
  ask_noop_without_selection initialState "hello" rfl

end PlanningDashboard
